import Mathlib

/-!
Verification of the IntelliRouter Python SDK chain-execution client stack.

The definitions below are a shallow embedding of the repository code:
  * `src/sdk/python/chains/models.py` (pydantic entity models),
  * `src/intellirouter/chains/api.py` (ChainClient),
  * `src/sdk/python/transport/http.py` (HTTPTransport error handling and SSE
    stream processing),
  * `src/intellirouter/exceptions.py` (exception taxonomy).

JSON-like Python values are modelled by the inductive `Json`; Python dicts are
association lists in insertion order (Python 3.7+ dicts preserve insertion
order, which is what the serialized request bodies rely on). Raised Python
exceptions are modelled as values of `PyError` carrying their class.
-/

namespace IntelliRouter

/-- A JSON-like Python value. Numbers are modelled as integers: no claim
depends on non-integral numerics. Objects are association lists in insertion
order, mirroring Python dict semantics. -/
inductive Json where
  | null
  | bool (b : Bool)
  | num (n : Int)
  | str (s : String)
  | arr (elems : List Json)
  | obj (fields : List (String × Json))

/-- Python `fields.get(key)` on a dict modelled as an association list
(first occurrence wins, as Python dicts cannot hold duplicate keys). -/
def getField (fields : List (String × Json)) (key : String) : Option Json :=
  (fields.find? (fun p => p.1 == key)).map Prod.snd

/-- The exception classes declared in `src/intellirouter/exceptions.py`. -/
inductive ExcClass where
  | intelliRouterError
  | apiError
  | authenticationError
  | rateLimitError
  | serverError
  | validationError
  | configurationError
deriving DecidableEq, Repr

/-- The direct superclass of each exception class, read off the `class`
declarations in `src/intellirouter/exceptions.py` (`IntelliRouterError`
extends the Python builtin `Exception`, outside the library). -/
def ExcClass.parent : ExcClass → Option ExcClass
  | .intelliRouterError => none
  | .apiError => some .intelliRouterError
  | .authenticationError => some .apiError
  | .rateLimitError => some .apiError
  | .serverError => some .apiError
  | .validationError => some .intelliRouterError
  | .configurationError => some .intelliRouterError

/-- Python `issubclass` on the taxonomy: reflexive-transitive closure of
`parent`. The hierarchy has depth at most two above any class, so two
dereferences suffice. -/
def ExcClass.isSubclassOf (c d : ExcClass) : Bool :=
  c == d ||
    match c.parent with
    | none => false
    | some p =>
        p == d ||
          match p.parent with
          | none => false
          | some q => q == d

/-- A raised exception value. `statusCode` models the `status_code` attribute
set by `APIError.__init__(message, status_code=None)` and inherited by its
subclasses; for classes outside the `APIError` branch the attribute is absent
in Python and the field is uniformly `none` here (no claim reads it there). -/
structure PyError where
  cls : ExcClass
  message : String
  statusCode : Option Nat := none
deriving DecidableEq, Repr

/-- The classifier `HTTPTransport._handle_error_response` (src/sdk/python/transport/http.py
lines 218-244), applied after the error message has been extracted from the
response body: classifies the HTTP status into the taxonomy. Only the generic
`APIError` branch passes `response.status_code` to the constructor; the three
specialized constructors receive the message alone, leaving `status_code` at
its default `None`. -/
def handleErrorResponse (statusCode : Nat) (errorMessage : String) : PyError :=
  if statusCode = 401 then
    { cls := .authenticationError
      message := "Authentication failed: " ++ errorMessage }
  else if statusCode = 429 then
    { cls := .rateLimitError
      message := "Rate limit exceeded: " ++ errorMessage }
  else if statusCode ≥ 500 then
    { cls := .serverError
      message := "Server error: " ++ errorMessage }
  else
    { cls := .apiError
      message := "API error: " ++ errorMessage
      statusCode := some statusCode }

/-! ## Entity models (src/sdk/python/chains/models.py)

The pydantic `BaseModel` classes are embedded as structures whose fields carry
the declared field types; construction from a raw mapping (`Model(**raw)`) is
embedded as an explicit `parse` function returning `Except String`, where
`.error` stands for pydantic raising a validation exception. Pydantic v1 lax
coercions (e.g. int-to-str) are not modelled: a field must be supplied at its
declared JSON shape. Unknown keys are ignored, matching the default pydantic
config. -/

/-- Model `ChainStep` (models.py lines 4-23): `id` and `type` are required strings;
`name`/`description` default to `None`; `inputs`/`outputs`/`config` default to
empty dicts. -/
structure ChainStep where
  id : String
  type : String
  name : Option String := none
  description : Option String := none
  inputs : List (String × Json) := []
  outputs : List (String × String) := []
  config : List (String × Json) := []

/-- The closed `Literal["simple", "conditional"]` of `ChainDependency.type`. -/
inductive DepType where
  | simple
  | conditional
deriving DecidableEq, Repr

/-- Model `ChainDependency` (models.py lines 25-37): required `dependent_step` and
`required_step` strings, `type` defaulting to simple, and an `Optional`
`condition` mapping with no cross-field validator tying it to `type`. -/
structure ChainDependency where
  dependent_step : String
  required_step : String
  type : DepType := .simple
  condition : Option (List (String × Json)) := none

/-- The closed event-type enum of `ChainExecutionEvent`. -/
inductive EventType where
  | step_started
  | step_completed
  | step_failed
  | chain_completed
  | chain_failed
deriving DecidableEq, Repr

/-- Model `ChainExecutionEvent` (models.py lines 92-105). -/
structure ChainExecutionEvent where
  event_type : EventType
  chain_id : String
  step_id : Option String := none
  data : List (String × Json) := []

/-- The closed execution-status enum of `ChainExecution`. -/
inductive ExecStatus where
  | running
  | completed
  | failed
deriving DecidableEq, Repr

/-- Model `ChainExecutionStepResult` (models.py lines 58-71). Field `execution_time` is an
`Optional[float]`; its value is kept as the raw JSON number since no claim
depends on numeric semantics. -/
structure ChainExecutionStepResult where
  step_id : String
  outputs : List (String × Json) := []
  error : Option String := none
  execution_time : Option Json := none

/-- Model `ChainExecution` (models.py lines 73-90). -/
structure ChainExecution where
  chain_id : String
  status : ExecStatus
  step_results : List (String × ChainExecutionStepResult) := []
  outputs : List (String × Json) := []
  error : Option String := none
  execution_time : Option Json := none

/-- Model `Chain` (models.py lines 39-56). -/
structure Chain where
  id : String
  name : Option String := none
  description : Option String := none
  steps : List (String × ChainStep) := []
  dependencies : List ChainDependency := []
  config : List (String × Json) := []

/-! ### Field parsers shared by the model constructors -/

/-- A required string field. -/
def reqStr (fields : List (String × Json)) (key : String) : Except String String :=
  match getField fields key with
  | some (Json.str s) => Except.ok s
  | some _ => Except.error (key ++ ": str type expected")
  | none => Except.error (key ++ ": field required")

/-- An `Optional[str]` field: missing or explicit `None` yields `none`. -/
def optStr (fields : List (String × Json)) (key : String) : Except String (Option String) :=
  match getField fields key with
  | none => Except.ok none
  | some Json.null => Except.ok none
  | some (Json.str s) => Except.ok (some s)
  | some _ => Except.error (key ++ ": str type expected")

/-- A `Dict[str, Any]` field defaulting to the empty dict. -/
def dictAny (fields : List (String × Json)) (key : String) :
    Except String (List (String × Json)) :=
  match getField fields key with
  | none => Except.ok []
  | some (Json.obj fs) => Except.ok fs
  | some _ => Except.error (key ++ ": value is not a valid dict")

/-- An `Optional[Dict[str, Any]]` field: missing or explicit `None` yields
`none`. -/
def optDict (fields : List (String × Json)) (key : String) :
    Except String (Option (List (String × Json))) :=
  match getField fields key with
  | none => Except.ok none
  | some Json.null => Except.ok none
  | some (Json.obj fs) => Except.ok (some fs)
  | some _ => Except.error (key ++ ": value is not a valid dict")

/-- A `Dict[str, str]` field defaulting to the empty dict: every value must be
a string. -/
def dictStr (fields : List (String × Json)) (key : String) :
    Except String (List (String × String)) :=
  match getField fields key with
  | none => Except.ok []
  | some (Json.obj fs) =>
      let rec strVals : List (String × Json) → Except String (List (String × String))
        | [] => Except.ok []
        | (k, Json.str v) :: rest =>
            match strVals rest with
            | Except.ok tl => Except.ok ((k, v) :: tl)
            | Except.error e => Except.error e
        | (_, _) :: _ => Except.error (key ++ ": str type expected")
      strVals fs
  | some _ => Except.error (key ++ ": value is not a valid dict")

/-- Construction `ChainStep(**fields)`: pydantic validation of a raw mapping. -/
def ChainStep.parse (fields : List (String × Json)) : Except String ChainStep :=
  match reqStr fields "id" with
  | Except.error e => Except.error e
  | Except.ok idv =>
  match reqStr fields "type" with
  | Except.error e => Except.error e
  | Except.ok tyv =>
  match optStr fields "name" with
  | Except.error e => Except.error e
  | Except.ok namev =>
  match optStr fields "description" with
  | Except.error e => Except.error e
  | Except.ok descv =>
  match dictAny fields "inputs" with
  | Except.error e => Except.error e
  | Except.ok inp =>
  match dictStr fields "outputs" with
  | Except.error e => Except.error e
  | Except.ok outp =>
  match dictAny fields "config" with
  | Except.error e => Except.error e
  | Except.ok cfg =>
      Except.ok { id := idv, type := tyv, name := namev, description := descv,
                  inputs := inp, outputs := outp, config := cfg }

/-- The `Literal["simple", "conditional"]` field of `ChainDependency`, with
its declared default. -/
def depTypeField (fields : List (String × Json)) : Except String DepType :=
  match getField fields "type" with
  | none => Except.ok DepType.simple
  | some (Json.str s) =>
      if s = "simple" then Except.ok DepType.simple
      else if s = "conditional" then Except.ok DepType.conditional
      else Except.error "type: unexpected value"
  | some _ => Except.error "type: unexpected value"

/-- Construction `ChainDependency(**fields)`: pydantic validation of a raw mapping. There
is no validator requiring `condition` for conditional dependencies. -/
def ChainDependency.parse (fields : List (String × Json)) :
    Except String ChainDependency :=
  match reqStr fields "dependent_step" with
  | Except.error e => Except.error e
  | Except.ok dep =>
  match reqStr fields "required_step" with
  | Except.error e => Except.error e
  | Except.ok req =>
  match depTypeField fields with
  | Except.error e => Except.error e
  | Except.ok ty =>
  match optDict fields "condition" with
  | Except.error e => Except.error e
  | Except.ok cond =>
      Except.ok { dependent_step := dep, required_step := req,
                  type := ty, condition := cond }

/-- The `Literal[...]` event-type field of `ChainExecutionEvent` (required,
no default). -/
def eventTypeField (fields : List (String × Json)) : Except String EventType :=
  match getField fields "event_type" with
  | none => Except.error "event_type: field required"
  | some (Json.str s) =>
      if s = "step_started" then Except.ok EventType.step_started
      else if s = "step_completed" then Except.ok EventType.step_completed
      else if s = "step_failed" then Except.ok EventType.step_failed
      else if s = "chain_completed" then Except.ok EventType.chain_completed
      else if s = "chain_failed" then Except.ok EventType.chain_failed
      else Except.error "event_type: unexpected value"
  | some _ => Except.error "event_type: unexpected value"

/-- Construction `ChainExecutionEvent(**fields)`: pydantic validation of a raw mapping.
An unrecognized `event_type` fails, matching the closed `Literal` enum. -/
def ChainExecutionEvent.parse (fields : List (String × Json)) :
    Except String ChainExecutionEvent :=
  match eventTypeField fields with
  | Except.error e => Except.error e
  | Except.ok ev =>
  match reqStr fields "chain_id" with
  | Except.error e => Except.error e
  | Except.ok cid =>
  match optStr fields "step_id" with
  | Except.error e => Except.error e
  | Except.ok sid =>
  match dictAny fields "data" with
  | Except.error e => Except.error e
  | Except.ok d =>
      Except.ok { event_type := ev, chain_id := cid, step_id := sid, data := d }

/-- An `Optional[float]` field kept as the raw JSON number (missing or `None`
yields `none`; a non-numeric value fails). -/
def optNum (fields : List (String × Json)) (key : String) :
    Except String (Option Json) :=
  match getField fields key with
  | none => Except.ok none
  | some Json.null => Except.ok none
  | some (Json.num n) => Except.ok (some (Json.num n))
  | some _ => Except.error (key ++ ": float type expected")

/-- The `Literal["running", "completed", "failed"]` status field of
`ChainExecution` (required, no default). -/
def execStatusField (fields : List (String × Json)) : Except String ExecStatus :=
  match getField fields "status" with
  | none => Except.error "status: field required"
  | some (Json.str s) =>
      if s = "running" then Except.ok ExecStatus.running
      else if s = "completed" then Except.ok ExecStatus.completed
      else if s = "failed" then Except.ok ExecStatus.failed
      else Except.error "status: unexpected value"
  | some _ => Except.error "status: unexpected value"

/-- Construction `ChainExecutionStepResult(**fields)`. -/
def ChainExecutionStepResult.parse (fields : List (String × Json)) :
    Except String ChainExecutionStepResult :=
  match reqStr fields "step_id" with
  | Except.error e => Except.error e
  | Except.ok sid =>
  match dictAny fields "outputs" with
  | Except.error e => Except.error e
  | Except.ok outp =>
  match optStr fields "error" with
  | Except.error e => Except.error e
  | Except.ok err =>
  match optNum fields "execution_time" with
  | Except.error e => Except.error e
  | Except.ok t =>
      Except.ok { step_id := sid, outputs := outp, error := err,
                  execution_time := t }

/-- Element-wise parse of the `Dict[str, ChainExecutionStepResult]` field:
each value must be a mapping that validates as a step result. -/
def parseStepResults : List (String × Json) →
    Except String (List (String × ChainExecutionStepResult))
  | [] => Except.ok []
  | (k, Json.obj fs) :: rest =>
      match ChainExecutionStepResult.parse fs with
      | Except.error e => Except.error e
      | Except.ok r =>
          match parseStepResults rest with
          | Except.error e => Except.error e
          | Except.ok tl => Except.ok ((k, r) :: tl)
  | (_, _) :: _ => Except.error "step_results: value is not a valid dict"

/-- Construction `ChainExecution(**fields)`. -/
def ChainExecution.parse (fields : List (String × Json)) :
    Except String ChainExecution :=
  match reqStr fields "chain_id" with
  | Except.error e => Except.error e
  | Except.ok cid =>
  match execStatusField fields with
  | Except.error e => Except.error e
  | Except.ok st =>
  match dictAny fields "step_results" with
  | Except.error e => Except.error e
  | Except.ok rawResults =>
  match parseStepResults rawResults with
  | Except.error e => Except.error e
  | Except.ok results =>
  match dictAny fields "outputs" with
  | Except.error e => Except.error e
  | Except.ok outp =>
  match optStr fields "error" with
  | Except.error e => Except.error e
  | Except.ok err =>
  match optNum fields "execution_time" with
  | Except.error e => Except.error e
  | Except.ok t =>
      Except.ok { chain_id := cid, status := st, step_results := results,
                  outputs := outp, error := err, execution_time := t }

/-- Element-wise parse of the `Dict[str, ChainStep]` field of `Chain`. -/
def parseChainSteps : List (String × Json) →
    Except String (List (String × ChainStep))
  | [] => Except.ok []
  | (k, Json.obj fs) :: rest =>
      match ChainStep.parse fs with
      | Except.error e => Except.error e
      | Except.ok s =>
          match parseChainSteps rest with
          | Except.error e => Except.error e
          | Except.ok tl => Except.ok ((k, s) :: tl)
  | (_, _) :: _ => Except.error "steps: value is not a valid dict"

/-- Element-wise parse of the `List[ChainDependency]` field of `Chain`. -/
def parseChainDeps : List Json → Except String (List ChainDependency)
  | [] => Except.ok []
  | Json.obj fs :: rest =>
      match ChainDependency.parse fs with
      | Except.error e => Except.error e
      | Except.ok d =>
          match parseChainDeps rest with
          | Except.error e => Except.error e
          | Except.ok tl => Except.ok (d :: tl)
  | _ :: _ => Except.error "dependencies: value is not a valid dict"

/-- A `List[...]` field defaulting to the empty list. -/
def listAny (fields : List (String × Json)) (key : String) :
    Except String (List Json) :=
  match getField fields key with
  | none => Except.ok []
  | some (Json.arr xs) => Except.ok xs
  | some _ => Except.error (key ++ ": value is not a valid list")

/-- Construction `Chain(**fields)`: pydantic validation of a raw mapping, with nested
element-wise validation of `steps` and `dependencies`. -/
def Chain.parse (fields : List (String × Json)) : Except String Chain :=
  match reqStr fields "id" with
  | Except.error e => Except.error e
  | Except.ok idv =>
  match optStr fields "name" with
  | Except.error e => Except.error e
  | Except.ok namev =>
  match optStr fields "description" with
  | Except.error e => Except.error e
  | Except.ok descv =>
  match dictAny fields "steps" with
  | Except.error e => Except.error e
  | Except.ok rawSteps =>
  match parseChainSteps rawSteps with
  | Except.error e => Except.error e
  | Except.ok stepsv =>
  match listAny fields "dependencies" with
  | Except.error e => Except.error e
  | Except.ok rawDeps =>
  match parseChainDeps rawDeps with
  | Except.error e => Except.error e
  | Except.ok depsv =>
  match dictAny fields "config" with
  | Except.error e => Except.error e
  | Except.ok cfg =>
      Except.ok { id := idv, name := namev, description := descv,
                  steps := stepsv, dependencies := depsv, config := cfg }

/-! ### Serialization: pydantic `.dict(exclude_none=True)`

`exclude_none=True` drops exactly the fields whose current value is `None`.
Fields holding mappings are always emitted (as empty mappings when left at
their defaults): pydantic has no record here of whether a field was set by
the caller. Output order is field declaration order. -/

/-- Serialization `ChainStep.dict(exclude_none=True)`. -/
def ChainStep.dictExcludeNone (s : ChainStep) : List (String × Json) :=
  [("id", Json.str s.id), ("type", Json.str s.type)]
    ++ (match s.name with
        | some v => [("name", Json.str v)]
        | none => [])
    ++ (match s.description with
        | some v => [("description", Json.str v)]
        | none => [])
    ++ [("inputs", Json.obj s.inputs),
        ("outputs", Json.obj (s.outputs.map (fun p => (p.1, Json.str p.2)))),
        ("config", Json.obj s.config)]

/-- The wire string of a `DepType` value. -/
def DepType.toStr : DepType → String
  | .simple => "simple"
  | .conditional => "conditional"

/-- Serialization `ChainDependency.dict(exclude_none=True)`. -/
def ChainDependency.dictExcludeNone (d : ChainDependency) : List (String × Json) :=
  [("dependent_step", Json.str d.dependent_step),
   ("required_step", Json.str d.required_step),
   ("type", Json.str d.type.toStr)]
    ++ (match d.condition with
        | some c => [("condition", Json.obj c)]
        | none => [])

/-! ## Chain client (src/intellirouter/chains/api.py)

The `steps`/`dependencies` arguments of `create`/`update` accept a union of
already-typed entities and raw mappings; any other Python value falls to the
final `else` branch. `StepInput.other`/`DepInput.other` stand for such a
value, carrying only the text of `type(x)` used in the error message. -/

/-- One element of the `steps` argument: `Union[ChainStep, Dict[str, Any]]`
or an arbitrary other Python value. -/
inductive StepInput where
  | entity (s : ChainStep)
  | raw (fields : List (String × Json))
  | other (typeName : String)

/-- One element of the `dependencies` argument. -/
inductive DepInput where
  | entity (d : ChainDependency)
  | raw (fields : List (String × Json))
  | other (typeName : String)

/-- The loop body of the `steps` formatting loop in `create`/`update`
(api.py lines 68-78): an entity is serialized directly, a raw mapping is
re-validated through the `ChainStep` constructor (failure re-raised as
`ValidationError`), anything else raises `ValidationError` outright. -/
def formatStep : StepInput → Except PyError (List (String × Json))
  | StepInput.entity s => Except.ok s.dictExcludeNone
  | StepInput.raw fields =>
      match ChainStep.parse fields with
      | Except.ok s => Except.ok s.dictExcludeNone
      | Except.error e =>
          Except.error { cls := .validationError
                         message := "Invalid chain step: " ++ e }
  | StepInput.other t =>
      Except.error { cls := .validationError
                     message := "Invalid chain step type: " ++ t }

/-- The loop body of the `dependencies` formatting loop (api.py lines 84-94). -/
def formatDep : DepInput → Except PyError (List (String × Json))
  | DepInput.entity d => Except.ok d.dictExcludeNone
  | DepInput.raw fields =>
      match ChainDependency.parse fields with
      | Except.ok d => Except.ok d.dictExcludeNone
      | Except.error e =>
          Except.error { cls := .validationError
                         message := "Invalid chain dependency: " ++ e }
  | DepInput.other t =>
      Except.error { cls := .validationError
                     message := "Invalid chain dependency type: " ++ t }

/-- The `formatted_steps` dict built by iterating `steps.items()` in
insertion order; the first invalid element aborts the whole call. -/
def formatSteps : List (String × StepInput) →
    Except PyError (List (String × Json))
  | [] => Except.ok []
  | (k, st) :: rest =>
      match formatStep st with
      | Except.error e => Except.error e
      | Except.ok f =>
          match formatSteps rest with
          | Except.error e => Except.error e
          | Except.ok tl => Except.ok ((k, Json.obj f) :: tl)

/-- The `formatted_dependencies` list built by iterating `dependencies`. -/
def formatDeps : List DepInput → Except PyError (List Json)
  | [] => Except.ok []
  | d :: rest =>
      match formatDep d with
      | Except.error e => Except.error e
      | Except.ok f =>
          match formatDeps rest with
          | Except.error e => Except.error e
          | Except.ok tl => Except.ok (Json.obj f :: tl)

/-- The `"steps"` entry of the request body: absent when the argument is
omitted (`None`), otherwise the formatted dict. -/
def stepsPart : Option (List (String × StepInput)) →
    Except PyError (List (String × Json))
  | none => Except.ok []
  | some ss =>
      match formatSteps ss with
      | Except.error e => Except.error e
      | Except.ok fs => Except.ok [("steps", Json.obj fs)]

/-- The `"dependencies"` entry of the request body: absent when the argument
is omitted. -/
def depsPart : Option (List DepInput) → Except PyError (List (String × Json))
  | none => Except.ok []
  | some ds =>
      match formatDeps ds with
      | Except.error e => Except.error e
      | Except.ok fd => Except.ok [("dependencies", Json.arr fd)]

/-- The request body built by `create` (api.py lines 58-99): `name` always
present, optional arguments added in source order only when supplied, steps
validated before dependencies. -/
def createBody (name : String) (description : Option String)
    (steps : Option (List (String × StepInput)))
    (dependencies : Option (List DepInput))
    (config : Option (List (String × Json))) :
    Except PyError (List (String × Json)) :=
  match stepsPart steps with
  | Except.error e => Except.error e
  | Except.ok sp =>
  match depsPart dependencies with
  | Except.error e => Except.error e
  | Except.ok dp =>
      Except.ok ([("name", Json.str name)]
        ++ (match description with
            | some d => [("description", Json.str d)]
            | none => [])
        ++ sp ++ dp
        ++ (match config with
            | some c => [("config", Json.obj c)]
            | none => []))

/-- The request body built by `update` (api.py lines 217-259): starts empty
and contains exactly the supplied fields, in source order. -/
def updateBody (name description : Option String)
    (steps : Option (List (String × StepInput)))
    (dependencies : Option (List DepInput))
    (config : Option (List (String × Json))) :
    Except PyError (List (String × Json)) :=
  match stepsPart steps with
  | Except.error e => Except.error e
  | Except.ok sp =>
  match depsPart dependencies with
  | Except.error e => Except.error e
  | Except.ok dp =>
      Except.ok ((match name with
            | some n => [("name", Json.str n)]
            | none => [])
        ++ (match description with
            | some d => [("description", Json.str d)]
            | none => [])
        ++ sp ++ dp
        ++ (match config with
            | some c => [("config", Json.obj c)]
            | none => []))

/-! ## Transport contract and recorded calls

The client treats the transport as an opaque collaborator (spec section 4.2).
A transport is modelled by two functions: `requestFn` for single round trips
(returning either decoded JSON or a raised taxonomy error) and `streamFn` for
streaming requests (returning the frame sequence together with how it ends).
Each client operation also returns the list of transport calls it performed,
so "zero transport calls" is a statement about program behaviour, not a
side-channel. -/

/-- The outcome of consuming a lazy generator to exhaustion: either it ends
normally after yielding `items`, or it yields `items` and then raises `err`
on the next pull. -/
inductive StreamOutcome (α : Type) where
  | ended (items : List α)
  | failed (items : List α) (err : PyError)

/-- The items a stream yielded before ending or failing. -/
def StreamOutcome.items : StreamOutcome α → List α
  | .ended xs => xs
  | .failed xs _ => xs

/-- Prepend one successfully yielded item to a stream outcome. -/
def StreamOutcome.cons (a : α) : StreamOutcome α → StreamOutcome α
  | .ended xs => .ended (a :: xs)
  | .failed xs e => .failed (a :: xs) e

/-- One transport request as issued by the chain client: HTTP method, path,
optional query parameters and optional JSON body. -/
structure Request where
  method : String
  path : String
  params : Option (List (String × Json)) := none
  data : Option (List (String × Json)) := none

/-- A recorded transport call: a blocking `request` or a streaming `stream`. -/
inductive Call where
  | request (r : Request)
  | stream (r : Request)

/-- The POST request issued by `create`. -/
def createReq (body : List (String × Json)) : Request :=
  { method := "POST", path := "/v1/chains", data := some body }

/-- The PATCH request issued by `update`. -/
def updateReq (chain_id : String) (body : List (String × Json)) : Request :=
  { method := "PATCH", path := "/v1/chains/" ++ chain_id, data := some body }

/-- The POST request issued by `run`/`stream` against the run endpoint. -/
def runReq (chain_id : String) (body : List (String × Json)) : Request :=
  { method := "POST", path := "/v1/chains/" ++ chain_id ++ "/run"
    data := some body }

/-- The transport capability the chain client is parameterized over. -/
structure TransportModel where
  requestFn : Request → Except PyError Json
  streamFn : Request → StreamOutcome Json

/-- The response-handling tail shared by `create`/`update` (api.py lines
108-112 and 268-272): a transport error propagates unchanged; a response
body that fails `Chain` validation (including a non-mapping response, which
cannot be splatted into the constructor) is re-raised as `ValidationError`. -/
def parseChainResponse : Except PyError Json → Except PyError Chain
  | Except.error e => Except.error e
  | Except.ok (Json.obj fields) =>
      match Chain.parse fields with
      | Except.ok c => Except.ok c
      | Except.error m =>
          Except.error { cls := .validationError
                         message := "Invalid chain response: " ++ m }
  | Except.ok _ =>
      Except.error { cls := .validationError
                     message := "Invalid chain response: not a mapping" }

/-- Operation `ChainClient.create` (api.py lines 30-112): build and validate the body
(zero transport calls on failure), POST `/v1/chains`, parse the response as a
`Chain` re-raising any parse failure as `ValidationError`. -/
def ChainClient.create (tr : TransportModel) (name : String)
    (description : Option String) (steps : Option (List (String × StepInput)))
    (dependencies : Option (List DepInput))
    (config : Option (List (String × Json))) :
    Except PyError Chain × List Call :=
  match createBody name description steps dependencies config with
  | Except.error e => (Except.error e, [])
  | Except.ok body =>
      (parseChainResponse (tr.requestFn (createReq body)),
       [Call.request (createReq body)])

/-- Operation `ChainClient.update` (api.py lines 187-272): build and validate the
partial body (zero transport calls on failure), PATCH `/v1/chains/{id}`,
parse the response as a `Chain`. -/
def ChainClient.update (tr : TransportModel) (chain_id : String)
    (name description : Option String)
    (steps : Option (List (String × StepInput)))
    (dependencies : Option (List DepInput))
    (config : Option (List (String × Json))) :
    Except PyError Chain × List Call :=
  match updateBody name description steps dependencies config with
  | Except.error e => (Except.error e, [])
  | Except.ok body =>
      (parseChainResponse (tr.requestFn (updateReq chain_id body)),
       [Call.request (updateReq chain_id body)])

/-- The `data` body of a run/stream request (api.py lines 321-328 and
370-377): `inputs`, the `stream` flag, and `config` only when supplied. -/
def runBody (inputs : List (String × Json))
    (config : Option (List (String × Json))) (stream : Bool) :
    List (String × Json) :=
  [("inputs", Json.obj inputs), ("stream", Json.bool stream)]
    ++ (match config with
        | some c => [("config", Json.obj c)]
        | none => [])

/-- The streaming POST issued by `ChainClient.stream`. -/
def streamReq (chain_id : String) (inputs : List (String × Json))
    (config : Option (List (String × Json))) : Request :=
  runReq chain_id (runBody inputs config true)

/-- Construction `ChainExecutionEvent(**event)` on one decoded frame: a non-mapping frame
cannot be splatted as keyword arguments and fails like any validation error
(both are caught by the same `except Exception`). -/
def eventOfFrame (j : Json) : Except String ChainExecutionEvent :=
  match j with
  | Json.obj fs => ChainExecutionEvent.parse fs
  | _ => Except.error "mapping expected"

/-- The client-side frame loop of `ChainClient.stream` (api.py lines
380-388) as a generator: each upstream frame is parsed as a
`ChainExecutionEvent` and yielded; a parse failure raises `ValidationError`
at that point, discarding nothing already yielded; once the upstream frames
are exhausted, `onEnd` (the upstream ending: normal end, or an error the
transport iterator raises outside the `try` of the client around the yield) is
propagated. -/
def parseEvents (onEnd : StreamOutcome ChainExecutionEvent) :
    List Json → StreamOutcome ChainExecutionEvent
  | [] => onEnd
  | j :: rest =>
      match eventOfFrame j with
      | Except.error m =>
          StreamOutcome.failed []
            { cls := .validationError
              message := "Invalid chain execution event: " ++ m }
      | Except.ok ev => (parseEvents onEnd rest).cons ev

/-- The event sequence `ChainClient.stream` produces from the upstream frame
sequence the transport produced. -/
def ChainClient.streamEvents (upstream : StreamOutcome Json) :
    StreamOutcome ChainExecutionEvent :=
  match upstream with
  | StreamOutcome.ended js => parseEvents (StreamOutcome.ended []) js
  | StreamOutcome.failed js e => parseEvents (StreamOutcome.failed [] e) js

/-- Operation `ChainClient.stream` (api.py lines 346-388): one streaming POST to
`/v1/chains/{id}/run` with `stream: true` in the body, each frame parsed into
a typed event. -/
def ChainClient.stream (tr : TransportModel) (chain_id : String)
    (inputs : List (String × Json)) (config : Option (List (String × Json))) :
    StreamOutcome ChainExecutionEvent × List Call :=
  let req := streamReq chain_id inputs config
  (ChainClient.streamEvents (tr.streamFn req), [Call.stream req])

/-- The response-handling tail of the non-streaming `run` (api.py lines
340-344). -/
def parseExecutionResponse : Except PyError Json → Except PyError ChainExecution
  | Except.error e => Except.error e
  | Except.ok (Json.obj fields) =>
      match ChainExecution.parse fields with
      | Except.ok ex => Except.ok ex
      | Except.error m =>
          Except.error { cls := .validationError
                         message := "Invalid chain execution response: " ++ m }
  | Except.ok _ =>
      Except.error { cls := .validationError
                     message := "Invalid chain execution response: not a mapping" }

/-- The two possible results of `ChainClient.run`. -/
inductive RunOutput where
  | execution (e : ChainExecution)
  | events (s : StreamOutcome ChainExecutionEvent)

/-- Operation `ChainClient.run` (api.py lines 294-344): with `stream=True` it delegates
to `ChainClient.stream` and returns its lazy sequence (the non-streaming
body it prepared first is discarded unused); with `stream=False` it POSTs
once and parses a `ChainExecution`. -/
def ChainClient.run (tr : TransportModel) (chain_id : String)
    (inputs : List (String × Json)) (config : Option (List (String × Json)))
    (stream : Bool) : Except PyError RunOutput × List Call :=
  if stream then
    let res := ChainClient.stream tr chain_id inputs config
    (Except.ok (RunOutput.events res.1), res.2)
  else
    let req : Request := runReq chain_id (runBody inputs config false)
    ((parseExecutionResponse (tr.requestFn req)).map RunOutput.execution,
     [Call.request req])

/-! ## HTTP transport SSE stream (src/sdk/python/transport/http.py) -/

/-- The SSE frame loop of `HTTPTransport.stream` (http.py lines 160-169),
parameterized by `decode`, the embedding of the Python standard library
`json.loads` (`none` models a `JSONDecodeError`): a `[DONE]` data payload
ends the sequence; an undecodable payload raises `APIError` — not
`ValidationError` — at that point; every other payload is decoded and
yielded. -/
def HTTPTransport.streamFrames (decode : String → Option Json) :
    List String → StreamOutcome Json
  | [] => StreamOutcome.ended []
  | s :: rest =>
      if s = "[DONE]" then StreamOutcome.ended []
      else
        match decode s with
        | none =>
            StreamOutcome.failed []
              { cls := .apiError
                message := "Invalid JSON in stream: " ++ s }
        | some j => (HTTPTransport.streamFrames decode rest).cons j

/-! ## Validity of step/dependency inputs

An input element satisfies the entity contract when it is an already-typed
entity or a raw mapping the corresponding pydantic constructor accepts. -/

/-- Whether one `steps` element satisfies the entity contract. -/
def StepInput.isValid : StepInput → Bool
  | StepInput.entity _ => true
  | StepInput.raw fields =>
      match ChainStep.parse fields with
      | Except.ok _ => true
      | Except.error _ => false
  | StepInput.other _ => false

/-- Whether one `dependencies` element satisfies the entity contract. -/
def DepInput.isValid : DepInput → Bool
  | DepInput.entity _ => true
  | DepInput.raw fields =>
      match ChainDependency.parse fields with
      | Except.ok _ => true
      | Except.error _ => false
  | DepInput.other _ => false

/-- Whether a supplied `steps` argument contains an element violating the
entity contract (an omitted argument contains none). -/
def hasInvalidStep : Option (List (String × StepInput)) → Bool
  | none => false
  | some ss => ss.any (fun p => !p.2.isValid)

/-- Whether a supplied `dependencies` argument contains an element violating
the entity contract. -/
def hasInvalidDep : Option (List DepInput) → Bool
  | none => false
  | some ds => ds.any (fun d => !d.isValid)

/-! ## Supporting lemmas -/

lemma formatStep_error_cls {st : StepInput} {e : PyError}
    (h : formatStep st = Except.error e) : e.cls = ExcClass.validationError := by
  cases st with
  | entity s => simp [formatStep] at h
  | raw fields =>
      simp only [formatStep] at h
      cases hp : ChainStep.parse fields with
      | ok s => rw [hp] at h; simp at h
      | error m => rw [hp] at h; cases h; rfl
  | other t => simp only [formatStep] at h; cases h; rfl

lemma formatDep_error_cls {d : DepInput} {e : PyError}
    (h : formatDep d = Except.error e) : e.cls = ExcClass.validationError := by
  cases d with
  | entity x => simp [formatDep] at h
  | raw fields =>
      simp only [formatDep] at h
      cases hp : ChainDependency.parse fields with
      | ok x => rw [hp] at h; simp at h
      | error m => rw [hp] at h; cases h; rfl
  | other t => simp only [formatDep] at h; cases h; rfl

lemma formatStep_invalid {st : StepInput} (h : st.isValid = false) :
    ∃ e, formatStep st = Except.error e := by
  cases st with
  | entity s => simp [StepInput.isValid] at h
  | raw fields =>
      simp only [StepInput.isValid] at h
      simp only [formatStep]
      cases hp : ChainStep.parse fields with
      | ok s => rw [hp] at h; simp at h
      | error m => exact ⟨_, rfl⟩
  | other t =>
      exact ⟨{ cls := ExcClass.validationError,
               message := "Invalid chain step type: " ++ t }, rfl⟩

lemma formatDep_invalid {d : DepInput} (h : d.isValid = false) :
    ∃ e, formatDep d = Except.error e := by
  cases d with
  | entity x => simp [DepInput.isValid] at h
  | raw fields =>
      simp only [DepInput.isValid] at h
      simp only [formatDep]
      cases hp : ChainDependency.parse fields with
      | ok x => rw [hp] at h; simp at h
      | error m => exact ⟨_, rfl⟩
  | other t =>
      exact ⟨{ cls := ExcClass.validationError,
               message := "Invalid chain dependency type: " ++ t }, rfl⟩

lemma formatSteps_error_cls {ss : List (String × StepInput)} {e : PyError}
    (h : formatSteps ss = Except.error e) : e.cls = ExcClass.validationError := by
  induction ss with
  | nil => simp [formatSteps] at h
  | cons p rest ih =>
      simp only [formatSteps] at h
      cases hf : formatStep p.2 with
      | error e1 =>
          rw [hf] at h; cases h
          exact formatStep_error_cls hf
      | ok f =>
          rw [hf] at h
          cases hr : formatSteps rest with
          | error e2 => rw [hr] at h; cases h; exact ih hr
          | ok tl => rw [hr] at h; simp at h

lemma formatDeps_error_cls {ds : List DepInput} {e : PyError}
    (h : formatDeps ds = Except.error e) : e.cls = ExcClass.validationError := by
  induction ds with
  | nil => simp [formatDeps] at h
  | cons d rest ih =>
      simp only [formatDeps] at h
      cases hf : formatDep d with
      | error e1 =>
          rw [hf] at h; cases h
          exact formatDep_error_cls hf
      | ok f =>
          rw [hf] at h
          cases hr : formatDeps rest with
          | error e2 => rw [hr] at h; cases h; exact ih hr
          | ok tl => rw [hr] at h; simp at h

lemma formatSteps_invalid {ss : List (String × StepInput)}
    (h : ss.any (fun p => !p.2.isValid) = true) :
    ∃ e, formatSteps ss = Except.error e := by
  induction ss with
  | nil => simp at h
  | cons p rest ih =>
      simp only [formatSteps]
      cases hf : formatStep p.2 with
      | error e1 => exact ⟨e1, rfl⟩
      | ok f =>
          simp only [List.any_cons, Bool.or_eq_true] at h
          cases h with
          | inl hbad =>
              obtain ⟨e1, he⟩ := formatStep_invalid (by simpa using hbad)
              rw [he] at hf; cases hf
          | inr hrest =>
              obtain ⟨e2, he2⟩ := ih hrest
              rw [he2]
              exact ⟨e2, rfl⟩

lemma formatDeps_invalid {ds : List DepInput}
    (h : ds.any (fun d => !d.isValid) = true) :
    ∃ e, formatDeps ds = Except.error e := by
  induction ds with
  | nil => simp at h
  | cons d rest ih =>
      simp only [formatDeps]
      cases hf : formatDep d with
      | error e1 => exact ⟨e1, rfl⟩
      | ok f =>
          simp only [List.any_cons, Bool.or_eq_true] at h
          cases h with
          | inl hbad =>
              obtain ⟨e1, he⟩ := formatDep_invalid (by simpa using hbad)
              rw [he] at hf; cases hf
          | inr hrest =>
              obtain ⟨e2, he2⟩ := ih hrest
              rw [he2]
              exact ⟨e2, rfl⟩

lemma stepsPart_error_cls {steps : Option (List (String × StepInput))}
    {e : PyError} (h : stepsPart steps = Except.error e) :
    e.cls = ExcClass.validationError := by
  cases steps with
  | none => simp [stepsPart] at h
  | some ss =>
      simp only [stepsPart] at h
      cases hf : formatSteps ss with
      | error e1 => rw [hf] at h; cases h; exact formatSteps_error_cls hf
      | ok fs => rw [hf] at h; simp at h

lemma depsPart_error_cls {deps : Option (List DepInput)} {e : PyError}
    (h : depsPart deps = Except.error e) : e.cls = ExcClass.validationError := by
  cases deps with
  | none => simp [depsPart] at h
  | some ds =>
      simp only [depsPart] at h
      cases hf : formatDeps ds with
      | error e1 => rw [hf] at h; cases h; exact formatDeps_error_cls hf
      | ok fd => rw [hf] at h; simp at h

lemma stepsPart_invalid {steps : Option (List (String × StepInput))}
    (h : hasInvalidStep steps = true) :
    ∃ e, stepsPart steps = Except.error e := by
  cases steps with
  | none => simp [hasInvalidStep] at h
  | some ss =>
      obtain ⟨e, he⟩ := formatSteps_invalid (by simpa [hasInvalidStep] using h)
      exact ⟨e, by simp [stepsPart, he]⟩

lemma depsPart_invalid {deps : Option (List DepInput)}
    (h : hasInvalidDep deps = true) : ∃ e, depsPart deps = Except.error e := by
  cases deps with
  | none => simp [hasInvalidDep] at h
  | some ds =>
      obtain ⟨e, he⟩ := formatDeps_invalid (by simpa [hasInvalidDep] using h)
      exact ⟨e, by simp [depsPart, he]⟩

lemma createBody_invalid {name : String} {description : Option String}
    {steps : Option (List (String × StepInput))}
    {deps : Option (List DepInput)} {config : Option (List (String × Json))}
    (h : (hasInvalidStep steps || hasInvalidDep deps) = true) :
    ∃ e, createBody name description steps deps config = Except.error e ∧
      e.cls = ExcClass.validationError := by
  unfold createBody
  cases hs : stepsPart steps with
  | error e => exact ⟨e, rfl, stepsPart_error_cls hs⟩
  | ok sp =>
      cases hd : depsPart deps with
      | error e => exact ⟨e, rfl, depsPart_error_cls hd⟩
      | ok dp =>
          exfalso
          rcases Bool.or_eq_true_iff.mp h with hbad | hbad
          · obtain ⟨e, he⟩ := stepsPart_invalid hbad
            rw [he] at hs; cases hs
          · obtain ⟨e, he⟩ := depsPart_invalid hbad
            rw [he] at hd; cases hd

lemma updateBody_invalid {name description : Option String}
    {steps : Option (List (String × StepInput))}
    {deps : Option (List DepInput)} {config : Option (List (String × Json))}
    (h : (hasInvalidStep steps || hasInvalidDep deps) = true) :
    ∃ e, updateBody name description steps deps config = Except.error e ∧
      e.cls = ExcClass.validationError := by
  unfold updateBody
  cases hs : stepsPart steps with
  | error e => exact ⟨e, rfl, stepsPart_error_cls hs⟩
  | ok sp =>
      cases hd : depsPart deps with
      | error e => exact ⟨e, rfl, depsPart_error_cls hd⟩
      | ok dp =>
          exfalso
          rcases Bool.or_eq_true_iff.mp h with hbad | hbad
          · obtain ⟨e, he⟩ := stepsPart_invalid hbad
            rw [he] at hs; cases hs
          · obtain ⟨e, he⟩ := depsPart_invalid hbad
            rw [he] at hd; cases hd

/-! ## Concrete fixtures used by witnesses -/

/-- A concrete transport: every blocking request fails with a generic
`APIError` and every streaming request produces an empty stream. -/
def trFixture : TransportModel :=
  { requestFn := fun _ => Except.error { cls := .apiError, message := "no server" }
    streamFn := fun _ => StreamOutcome.ended [] }

/-- A step mapping violating the entity contract: its required `type` field
is missing. -/
def badStepArg : Option (List (String × StepInput)) :=
  some [("s1", StepInput.raw [("id", Json.str "s1")])]

/-! ## Claims -/

/-- C1: for every steps/dependencies argument to create or update containing
at least one element violating the entity contract (a mapping the entity
constructor rejects, or a value that is neither an entity nor a mapping),
the call raises `ValidationError` and performs zero transport calls. -/
theorem create_update_invalid_element_fails_without_transport
    (tr : TransportModel) (name chain_id : String)
    (description uname udesc : Option String)
    (steps : Option (List (String × StepInput)))
    (deps : Option (List DepInput)) (config : Option (List (String × Json)))
    (h : (hasInvalidStep steps || hasInvalidDep deps) = true) :
    (∃ e, ChainClient.create tr name description steps deps config =
        (Except.error e, []) ∧ e.cls = ExcClass.validationError) ∧
    (∃ e, ChainClient.update tr chain_id uname udesc steps deps config =
        (Except.error e, []) ∧ e.cls = ExcClass.validationError) := by
  constructor
  · obtain ⟨e, he, hc⟩ := @createBody_invalid name description steps deps config h
    exact ⟨e, by simp only [ChainClient.create, he], hc⟩
  · obtain ⟨e, he, hc⟩ := @updateBody_invalid uname udesc steps deps config h
    exact ⟨e, by simp only [ChainClient.update, he], hc⟩

/-- Witness for C1 at a concrete step mapping missing its required `type`. -/
theorem create_update_invalid_element_fails_without_transport_witness :
    (∃ e, ChainClient.create trFixture "my-chain" none badStepArg none none =
        (Except.error e, []) ∧ e.cls = ExcClass.validationError) ∧
    (∃ e, ChainClient.update trFixture "chain-1" none none badStepArg none none =
        (Except.error e, []) ∧ e.cls = ExcClass.validationError) :=
  create_update_invalid_element_fails_without_transport trFixture "my-chain"
    "chain-1" none none none badStepArg none none (by rfl)

/-- C2: an HTTP response status of at least 400 is classified by the
transport error handler exactly along the taxonomy — 401 to
`AuthenticationError`, 429 to `RateLimitError`, at least 500 to
`ServerError`, anything else to the generic `APIError` — and each of these
classes is a subclass of `APIError`, itself a subclass of
`IntelliRouterError`. -/
theorem error_taxonomy_selected_by_status (status : Nat) (msg : String)
    (h : 400 ≤ status) :
    (status = 401 →
      (handleErrorResponse status msg).cls = ExcClass.authenticationError) ∧
    (status = 429 →
      (handleErrorResponse status msg).cls = ExcClass.rateLimitError) ∧
    (500 ≤ status →
      (handleErrorResponse status msg).cls = ExcClass.serverError) ∧
    (status ≠ 401 → status ≠ 429 → status < 500 →
      (handleErrorResponse status msg).cls = ExcClass.apiError) ∧
    ((handleErrorResponse status msg).cls.isSubclassOf ExcClass.apiError = true) ∧
    (ExcClass.isSubclassOf ExcClass.authenticationError ExcClass.apiError = true) ∧
    (ExcClass.isSubclassOf ExcClass.rateLimitError ExcClass.apiError = true) ∧
    (ExcClass.isSubclassOf ExcClass.serverError ExcClass.apiError = true) ∧
    (ExcClass.isSubclassOf ExcClass.apiError ExcClass.intelliRouterError = true) := by
  refine ⟨?_, ?_, ?_, ?_, ?_, by decide, by decide, by decide, by decide⟩
  · intro h1; simp [handleErrorResponse, h1]
  · intro h2
    have h1 : status ≠ 401 := by omega
    simp [handleErrorResponse, h1, h2]
  · intro h5
    have h1 : status ≠ 401 := by omega
    have h2 : status ≠ 429 := by omega
    simp [handleErrorResponse, h1, h2, h5]
  · intro h1 h2 h3
    have h4 : ¬ 500 ≤ status := by omega
    simp [handleErrorResponse, h1, h2, h4]
  · by_cases h1 : status = 401
    · simp [handleErrorResponse, h1]
      decide
    · by_cases h2 : status = 429
      · simp [handleErrorResponse, h1, h2]
        decide
      · by_cases h3 : 500 ≤ status
        · simp [handleErrorResponse, h1, h2, h3]
          decide
        · simp [handleErrorResponse, h1, h2, h3]
          decide

/-- Witness for C2 at status 503 (the ServerError branch). -/
theorem error_taxonomy_selected_by_status_witness :
    (503 = 401 →
      (handleErrorResponse 503 "boom").cls = ExcClass.authenticationError) ∧
    (503 = 429 →
      (handleErrorResponse 503 "boom").cls = ExcClass.rateLimitError) ∧
    (500 ≤ 503 →
      (handleErrorResponse 503 "boom").cls = ExcClass.serverError) ∧
    (503 ≠ 401 → 503 ≠ 429 → 503 < 500 →
      (handleErrorResponse 503 "boom").cls = ExcClass.apiError) ∧
    ((handleErrorResponse 503 "boom").cls.isSubclassOf ExcClass.apiError = true) ∧
    (ExcClass.isSubclassOf ExcClass.authenticationError ExcClass.apiError = true) ∧
    (ExcClass.isSubclassOf ExcClass.rateLimitError ExcClass.apiError = true) ∧
    (ExcClass.isSubclassOf ExcClass.serverError ExcClass.apiError = true) ∧
    (ExcClass.isSubclassOf ExcClass.apiError ExcClass.intelliRouterError = true) :=
  error_taxonomy_selected_by_status 503 "boom" (by decide)

/-- C10: the specialized taxonomy classes raised by the transport error
handler never carry the HTTP status: only the generic `APIError` branch
passes the status code to the constructor, although every specialized class
inherits the `status_code` attribute from `APIError`. -/
theorem specialized_errors_carry_no_status (status : Nat) (msg : String)
    (h : 400 ≤ status) :
    (((handleErrorResponse status msg).cls = ExcClass.authenticationError ∨
      (handleErrorResponse status msg).cls = ExcClass.rateLimitError ∨
      (handleErrorResponse status msg).cls = ExcClass.serverError) →
      (handleErrorResponse status msg).statusCode = none) ∧
    ((handleErrorResponse status msg).cls = ExcClass.apiError →
      (handleErrorResponse status msg).statusCode = some status) ∧
    (ExcClass.isSubclassOf ExcClass.authenticationError ExcClass.apiError = true) ∧
    (ExcClass.isSubclassOf ExcClass.rateLimitError ExcClass.apiError = true) ∧
    (ExcClass.isSubclassOf ExcClass.serverError ExcClass.apiError = true) := by
  refine ⟨?_, ?_, by decide, by decide, by decide⟩
  · intro hcls
    by_cases h1 : status = 401
    · simp [handleErrorResponse, h1]
    · by_cases h2 : status = 429
      · simp [handleErrorResponse, h1, h2]
      · by_cases h3 : 500 ≤ status
        · simp [handleErrorResponse, h1, h2, h3]
        · exfalso
          simp [handleErrorResponse, h1, h2, h3] at hcls
  · intro hcls
    by_cases h1 : status = 401
    · exfalso; simp [handleErrorResponse, h1] at hcls
    · by_cases h2 : status = 429
      · exfalso; simp [handleErrorResponse, h1, h2] at hcls
      · by_cases h3 : 500 ≤ status
        · exfalso; simp [handleErrorResponse, h1, h2, h3] at hcls
        · simp [handleErrorResponse, h1, h2, h3]

/-- Witness for C10 at status 401: the `AuthenticationError` raised carries
no status code. -/
theorem specialized_errors_carry_no_status_witness :
    (((handleErrorResponse 401 "denied").cls = ExcClass.authenticationError ∨
      (handleErrorResponse 401 "denied").cls = ExcClass.rateLimitError ∨
      (handleErrorResponse 401 "denied").cls = ExcClass.serverError) →
      (handleErrorResponse 401 "denied").statusCode = none) ∧
    ((handleErrorResponse 401 "denied").cls = ExcClass.apiError →
      (handleErrorResponse 401 "denied").statusCode = some 401) ∧
    (ExcClass.isSubclassOf ExcClass.authenticationError ExcClass.apiError = true) ∧
    (ExcClass.isSubclassOf ExcClass.rateLimitError ExcClass.apiError = true) ∧
    (ExcClass.isSubclassOf ExcClass.serverError ExcClass.apiError = true) :=
  specialized_errors_carry_no_status 401 "denied" (by decide)

lemma stepsPart_keys {steps : Option (List (String × StepInput))}
    {sp : List (String × Json)} (h : stepsPart steps = Except.ok sp) :
    sp.map Prod.fst = (if steps.isSome then ["steps"] else []) := by
  cases steps with
  | none => simp [stepsPart] at h; subst h; rfl
  | some ss =>
      simp only [stepsPart] at h
      cases hf : formatSteps ss with
      | error e => rw [hf] at h; simp at h
      | ok fs => rw [hf] at h; cases h; rfl

lemma depsPart_keys {deps : Option (List DepInput)} {dp : List (String × Json)}
    (h : depsPart deps = Except.ok dp) :
    dp.map Prod.fst = (if deps.isSome then ["dependencies"] else []) := by
  cases deps with
  | none => simp [depsPart] at h; subst h; rfl
  | some ds =>
      simp only [depsPart] at h
      cases hf : formatDeps ds with
      | error e => rw [hf] at h; simp at h
      | ok fd => rw [hf] at h; cases h; rfl

/-- C3 (counterexample): a step constructed with only `id` and `type` does
NOT serialize without `inputs`/`outputs`/`config` keys — pydantic
`exclude_none` keeps those mapping-valued fields, emitting them as empty
mappings, both on the raw-mapping path through `formatStep` and on the
direct entity serialization. -/
theorem minimal_step_serialization_keeps_mapping_keys :
    formatStep (StepInput.raw [("id", Json.str "s1"), ("type", Json.str "llm")]) =
      Except.ok [("id", Json.str "s1"), ("type", Json.str "llm"),
        ("inputs", Json.obj []), ("outputs", Json.obj []), ("config", Json.obj [])] ∧
    getField (ChainStep.dictExcludeNone { id := "s1", type := "llm" }) "inputs" =
      some (Json.obj []) ∧
    getField (ChainStep.dictExcludeNone { id := "s1", type := "llm" }) "outputs" =
      some (Json.obj []) ∧
    getField (ChainStep.dictExcludeNone { id := "s1", type := "llm" }) "config" =
      some (Json.obj []) :=
  ⟨rfl, rfl, rfl, rfl⟩

/-- C3 (amended): serialization excludes exactly the fields whose current
value is `None` — for a step, the optional `name`/`description`; for a
dependency, the optional `condition` — while the mapping-valued fields
`inputs`/`outputs`/`config` are always emitted (as empty mappings when never
provided). A field explicitly set to `None` is therefore indistinguishable
from one never provided. -/
theorem dict_exclude_none_drops_exactly_none_fields
    (s : ChainStep) (d : ChainDependency) :
    getField s.dictExcludeNone "id" = some (Json.str s.id) ∧
    getField s.dictExcludeNone "type" = some (Json.str s.type) ∧
    getField s.dictExcludeNone "name" = s.name.map Json.str ∧
    getField s.dictExcludeNone "description" = s.description.map Json.str ∧
    getField s.dictExcludeNone "inputs" = some (Json.obj s.inputs) ∧
    getField s.dictExcludeNone "outputs" =
      some (Json.obj (s.outputs.map (fun p => (p.1, Json.str p.2)))) ∧
    getField s.dictExcludeNone "config" = some (Json.obj s.config) ∧
    getField d.dictExcludeNone "condition" = d.condition.map Json.obj ∧
    getField d.dictExcludeNone "type" = some (Json.str d.type.toStr) := by
  cases hn : s.name <;> cases hd : s.description <;> cases hc : d.condition <;>
    simp [ChainStep.dictExcludeNone, ChainDependency.dictExcludeNone,
      getField, hn, hd, hc]

/-- C4: a valid create body holds exactly the supplied top-level fields
(`name` always, the optional arguments only when supplied), and an update
with only `description` supplied sends a PATCH whose body is literally the
one-entry description mapping. -/
theorem request_bodies_contain_exactly_supplied_fields
    (name chain_id d : String) (description : Option String)
    (steps : Option (List (String × StepInput))) (deps : Option (List DepInput))
    (config : Option (List (String × Json))) (tr : TransportModel)
    (body : List (String × Json))
    (h : createBody name description steps deps config = Except.ok body) :
    body.map Prod.fst =
      ["name"]
        ++ (if description.isSome then ["description"] else [])
        ++ (if steps.isSome then ["steps"] else [])
        ++ (if deps.isSome then ["dependencies"] else [])
        ++ (if config.isSome then ["config"] else []) ∧
    ChainClient.update tr chain_id none (some d) none none none =
      (parseChainResponse
         (tr.requestFn (updateReq chain_id [("description", Json.str d)])),
       [Call.request (updateReq chain_id [("description", Json.str d)])]) := by
  constructor
  · cases hs : stepsPart steps with
    | error e => simp [createBody, hs] at h
    | ok sp =>
        cases hd2 : depsPart deps with
        | error e => simp [createBody, hs, hd2] at h
        | ok dp =>
            simp only [createBody, hs, hd2, Except.ok.injEq] at h
            subst h
            simp only [List.map_append, List.map_cons, List.map_nil,
              List.append_assoc]
            rw [stepsPart_keys hs, depsPart_keys hd2]
            cases description <;> cases config <;> simp
  · rfl

/-- Witness for C4 at concrete inputs: create with every optional argument
omitted, update with only a description. -/
theorem request_bodies_contain_exactly_supplied_fields_witness :
    ([("name", Json.str "my-chain")] : List (String × Json)).map Prod.fst =
      ["name"]
        ++ (if (none : Option String).isSome then ["description"] else [])
        ++ (if (none : Option (List (String × StepInput))).isSome then ["steps"] else [])
        ++ (if (none : Option (List DepInput)).isSome then ["dependencies"] else [])
        ++ (if (none : Option (List (String × Json))).isSome then ["config"] else []) ∧
    ChainClient.update trFixture "chain-1" none (some "new text") none none none =
      (parseChainResponse
         (trFixture.requestFn (updateReq "chain-1" [("description", Json.str "new text")])),
       [Call.request (updateReq "chain-1" [("description", Json.str "new text")])]) :=
  request_bodies_contain_exactly_supplied_fields "my-chain" "chain-1"
    "new text" none none none none trFixture [("name", Json.str "my-chain")] rfl

/-- C9 (counterexample): constructing a `ChainDependency` from a mapping with
`type = conditional` and no `condition` SUCCEEDS — the model declares
`condition` as plain `Optional` with no validator tying it to `type`, so the
claimed validation failure does not occur. -/
theorem conditional_dependency_without_condition_is_accepted :
    ChainDependency.parse [("dependent_step", Json.str "a"),
        ("required_step", Json.str "b"), ("type", Json.str "conditional")] =
      Except.ok { dependent_step := "a", required_step := "b",
                  type := DepType.conditional, condition := none } ∧
    DepInput.isValid (DepInput.raw [("dependent_step", Json.str "a"),
        ("required_step", Json.str "b"), ("type", Json.str "conditional")]) = true :=
  ⟨rfl, rfl⟩

/-- C9 (amended): `condition` is optional regardless of `type` — a
conditional dependency without it is accepted, a simple one without it is
accepted, `type` defaults to simple when omitted, and a `type` outside the
closed set is rejected. -/
theorem dependency_condition_optional_and_type_defaults (a b : String) :
    (ChainDependency.parse [("dependent_step", Json.str a),
        ("required_step", Json.str b), ("type", Json.str "conditional")] =
      Except.ok { dependent_step := a, required_step := b,
                  type := DepType.conditional, condition := none }) ∧
    (ChainDependency.parse [("dependent_step", Json.str a),
        ("required_step", Json.str b), ("type", Json.str "simple")] =
      Except.ok { dependent_step := a, required_step := b,
                  type := DepType.simple, condition := none }) ∧
    (ChainDependency.parse [("dependent_step", Json.str a),
        ("required_step", Json.str b)] =
      Except.ok { dependent_step := a, required_step := b,
                  type := DepType.simple, condition := none }) ∧
    (ChainDependency.parse [("dependent_step", Json.str a),
        ("required_step", Json.str b), ("type", Json.str "unknown")] =
      Except.error "type: unexpected value") :=
  ⟨rfl, rfl, rfl, rfl⟩

/-- Parse each decoded frame as a typed event, failing on the first invalid
frame: the element-wise reference against which the streaming loop is
compared. -/
def parseEventList : List Json → Except String (List ChainExecutionEvent)
  | [] => Except.ok []
  | j :: rest =>
      match eventOfFrame j with
      | Except.error e => Except.error e
      | Except.ok ev =>
          match parseEventList rest with
          | Except.error e => Except.error e
          | Except.ok tl => Except.ok (ev :: tl)

lemma foldr_cons_ended {α : Type} (evs xs : List α) :
    evs.foldr StreamOutcome.cons (StreamOutcome.ended xs) =
      StreamOutcome.ended (evs ++ xs) := by
  induction evs with
  | nil => rfl
  | cons e tl ih => simp [List.foldr, ih, StreamOutcome.cons]

lemma foldr_cons_failed {α : Type} (evs xs : List α) (e : PyError) :
    evs.foldr StreamOutcome.cons (StreamOutcome.failed xs e) =
      StreamOutcome.failed (evs ++ xs) e := by
  induction evs with
  | nil => rfl
  | cons a tl ih => simp [List.foldr, ih, StreamOutcome.cons]

lemma parseEvents_append {good : List Json} {evs : List ChainExecutionEvent}
    (hp : parseEventList good = Except.ok evs)
    (onEnd : StreamOutcome ChainExecutionEvent) (rest : List Json) :
    parseEvents onEnd (good ++ rest) =
      evs.foldr StreamOutcome.cons (parseEvents onEnd rest) := by
  induction good generalizing evs with
  | nil =>
      simp [parseEventList] at hp
      subst hp
      simp [List.foldr]
  | cons j tl ih =>
      simp only [parseEventList] at hp
      cases he : eventOfFrame j with
      | error m => rw [he] at hp; simp at hp
      | ok ev =>
          rw [he] at hp
          cases ht : parseEventList tl with
          | error m => rw [ht] at hp; simp at hp
          | ok evs2 =>
              rw [ht] at hp
              cases hp
              simp only [List.cons_append, parseEvents, he, List.foldr]
              congr 1
              exact ih ht

lemma parseEventList_length {js : List Json} {evs : List ChainExecutionEvent}
    (hp : parseEventList js = Except.ok evs) : evs.length = js.length := by
  induction js generalizing evs with
  | nil => simp [parseEventList] at hp; subst hp; rfl
  | cons j tl ih =>
      simp only [parseEventList] at hp
      cases he : eventOfFrame j with
      | error m => rw [he] at hp; simp at hp
      | ok ev =>
          rw [he] at hp
          cases ht : parseEventList tl with
          | error m => rw [ht] at hp; simp at hp
          | ok evs2 => rw [ht] at hp; cases hp; simp [ih ht]

lemma parseEvents_ended {js : List Json} {evs : List ChainExecutionEvent}
    (hp : parseEventList js = Except.ok evs) :
    parseEvents (StreamOutcome.ended []) js = StreamOutcome.ended evs := by
  have h := parseEvents_append hp (StreamOutcome.ended []) []
  rw [List.append_nil] at h
  have h2 : parseEvents (StreamOutcome.ended []) ([] : List Json) =
      StreamOutcome.ended [] := rfl
  rw [h, h2, foldr_cons_ended, List.append_nil]

lemma parseEvents_fails_at_bad {good : List Json}
    {evs : List ChainExecutionEvent} {bad : Json} {rest : List Json}
    {msg : String} (hgood : parseEventList good = Except.ok evs)
    (hbad : eventOfFrame bad = Except.error msg)
    (onEnd : StreamOutcome ChainExecutionEvent) :
    parseEvents onEnd (good ++ bad :: rest) =
      StreamOutcome.failed evs
        { cls := ExcClass.validationError
          message := "Invalid chain execution event: " ++ msg } := by
  rw [parseEvents_append hgood onEnd (bad :: rest)]
  have h1 : parseEvents onEnd (bad :: rest) =
      StreamOutcome.failed []
        { cls := ExcClass.validationError
          message := "Invalid chain execution event: " ++ msg } := by
    simp [parseEvents, hbad]
  rw [h1, foldr_cons_failed, List.append_nil]

/-! ## Fixtures for the streaming claims -/

/-- The first frame of the two-frame example in the spec. -/
def frameStepCompleted : Json :=
  Json.obj [("event_type", Json.str "step_completed"),
    ("chain_id", Json.str "c1"), ("step_id", Json.str "step1"),
    ("data", Json.obj [("result", Json.str "ok")])]

/-- The second frame of the two-frame example in the spec. -/
def frameChainCompleted : Json :=
  Json.obj [("event_type", Json.str "chain_completed"),
    ("chain_id", Json.str "c1"),
    ("data", Json.obj [("outputs", Json.obj [("x", Json.num 1)])])]

/-- The typed event the first example frame parses to. -/
def evStepCompleted : ChainExecutionEvent :=
  { event_type := EventType.step_completed, chain_id := "c1",
    step_id := some "step1", data := [("result", Json.str "ok")] }

/-- The typed event the second example frame parses to. -/
def evChainCompleted : ChainExecutionEvent :=
  { event_type := EventType.chain_completed, chain_id := "c1",
    data := [("outputs", Json.obj [("x", Json.num 1)])] }

/-- A transport whose stream produces exactly the two example frames. -/
def trTwoFrames : TransportModel :=
  { requestFn := fun _ => Except.error { cls := .apiError, message := "no server" }
    streamFn := fun _ =>
      StreamOutcome.ended [frameStepCompleted, frameChainCompleted] }

/-- A concrete stand-in for `json.loads` used in counterexamples: decodes the
literal `null` and nothing else (any other text raises `JSONDecodeError`,
modelled as `none`). -/
def decodeFixture (s : String) : Option Json :=
  if s = "null" then some Json.null else none

/-- A transport whose streaming response carries one SSE data payload that is
not decodable as JSON, processed by the HTTP transport frame loop. -/
def trStreamBadFrame : TransportModel :=
  { requestFn := fun _ => Except.error { cls := .apiError, message := "no server" }
    streamFn := fun _ => HTTPTransport.streamFrames decodeFixture ["notjson"] }

/-! ## Streaming claims -/

/-- C5 (counterexample): a streamed frame that is not decodable as JSON at
all makes the sequence raise the `APIError` of the transport, not
`ValidationError` — the decode failure happens in `HTTPTransport.stream`
before the event-parsing `try` of the client is reached. -/
theorem undecodable_frame_raises_api_error_not_validation :
    (ChainClient.stream trStreamBadFrame "c1" [] none).1 =
      StreamOutcome.failed []
        { cls := ExcClass.apiError
          message := "Invalid JSON in stream: notjson" } ∧
    ExcClass.apiError ≠ ExcClass.validationError :=
  ⟨rfl, by decide⟩

/-- C5 (amended): a frame that decodes as JSON but cannot be parsed as a
`ChainExecutionEvent` makes the sequence of the client raise `ValidationError` at
that point — never silently skipped — with every event yielded before the
failure already delivered and intact; a frame not decodable as JSON at all
instead makes the transport raise `APIError` at that point. -/
theorem malformed_frame_validation_error_preserves_prior_events
    (good : List Json) (evs : List ChainExecutionEvent) (bad : Json)
    (rest : List Json) (msg : String) (decode : String → Option Json)
    (s : String) (more : List String)
    (hgood : parseEventList good = Except.ok evs)
    (hbad : eventOfFrame bad = Except.error msg)
    (hdec : decode s = none) (hnd : s ≠ "[DONE]") :
    ChainClient.streamEvents (StreamOutcome.ended (good ++ bad :: rest)) =
      StreamOutcome.failed evs
        { cls := ExcClass.validationError
          message := "Invalid chain execution event: " ++ msg } ∧
    HTTPTransport.streamFrames decode (s :: more) =
      StreamOutcome.failed []
        { cls := ExcClass.apiError
          message := "Invalid JSON in stream: " ++ s } := by
  constructor
  · simp only [ChainClient.streamEvents]
    exact parseEvents_fails_at_bad hgood hbad _
  · simp [HTTPTransport.streamFrames, hnd, hdec]

/-- Witness for the amended C5: one good frame, then a frame missing its
required `event_type`; and the undecodable payload for the transport part. -/
theorem malformed_frame_validation_error_preserves_prior_events_witness :
    ChainClient.streamEvents
        (StreamOutcome.ended ([frameStepCompleted] ++
          Json.obj [("chain_id", Json.str "c1")] :: [])) =
      StreamOutcome.failed [evStepCompleted]
        { cls := ExcClass.validationError
          message := "Invalid chain execution event: " ++
            "event_type: field required" } ∧
    HTTPTransport.streamFrames decodeFixture ("notjson" :: []) =
      StreamOutcome.failed []
        { cls := ExcClass.apiError
          message := "Invalid JSON in stream: " ++ "notjson" } :=
  malformed_frame_validation_error_preserves_prior_events
    [frameStepCompleted] [evStepCompleted]
    (Json.obj [("chain_id", Json.str "c1")]) [] "event_type: field required"
    decodeFixture "notjson" [] rfl rfl rfl (by decide)

/-- C6: for every finite sequence of well-formed frames produced by the
transport, the stream of the client yields exactly one typed event per frame, in
frame order, and ends exactly when the sequence of the transport ends; at the
concrete two-frame input of the spec it yields the two typed events in order, the
second carrying `outputs` with `x = 1`. -/
theorem stream_yields_one_typed_event_per_frame_in_order (tr : TransportModel)
    (chain_id : String) (inputs : List (String × Json))
    (config : Option (List (String × Json))) (js : List Json)
    (evs : List ChainExecutionEvent)
    (htr : tr.streamFn (streamReq chain_id inputs config) =
      StreamOutcome.ended js)
    (hp : parseEventList js = Except.ok evs) :
    (ChainClient.stream tr chain_id inputs config).1 =
      StreamOutcome.ended evs ∧
    evs.length = js.length ∧
    (ChainClient.stream trTwoFrames "c1" [] none).1 =
      StreamOutcome.ended [evStepCompleted, evChainCompleted] ∧
    getField evChainCompleted.data "outputs" =
      some (Json.obj [("x", Json.num 1)]) := by
  refine ⟨?_, parseEventList_length hp, rfl, rfl⟩
  simp only [ChainClient.stream, htr, ChainClient.streamEvents]
  exact parseEvents_ended hp

/-- Witness for C6 at the two-frame transport of the spec. -/
theorem stream_yields_one_typed_event_per_frame_in_order_witness :
    (ChainClient.stream trTwoFrames "c1" [] none).1 =
      StreamOutcome.ended [evStepCompleted, evChainCompleted] ∧
    ([evStepCompleted, evChainCompleted] : List ChainExecutionEvent).length =
      ([frameStepCompleted, frameChainCompleted] : List Json).length ∧
    (ChainClient.stream trTwoFrames "c1" [] none).1 =
      StreamOutcome.ended [evStepCompleted, evChainCompleted] ∧
    getField evChainCompleted.data "outputs" =
      some (Json.obj [("x", Json.num 1)]) :=
  stream_yields_one_typed_event_per_frame_in_order trTwoFrames "c1" [] none
    [frameStepCompleted, frameChainCompleted]
    [evStepCompleted, evChainCompleted] rfl rfl

/-- C7: `run` with `stream=True` returns exactly the lazy event sequence of
`stream` and performs no non-streaming request of its own; the single
transport call of both paths is the streaming POST to the run endpoint with
`stream: true` in the body. -/
theorem run_stream_true_delegates_to_stream (tr : TransportModel)
    (chain_id : String) (inputs : List (String × Json))
    (config : Option (List (String × Json))) :
    ChainClient.run tr chain_id inputs config true =
      (Except.ok (RunOutput.events
        (ChainClient.stream tr chain_id inputs config).1),
       (ChainClient.stream tr chain_id inputs config).2) ∧
    (ChainClient.run tr chain_id inputs config true).2 =
      [Call.stream (streamReq chain_id inputs config)] ∧
    (ChainClient.stream tr chain_id inputs config).2 =
      [Call.stream (streamReq chain_id inputs config)] ∧
    (streamReq chain_id inputs config).method = "POST" ∧
    (streamReq chain_id inputs config).path =
      "/v1/chains/" ++ chain_id ++ "/run" ∧
    getField (runBody inputs config true) "stream" = some (Json.bool true) ∧
    (streamReq chain_id inputs config).data =
      some (runBody inputs config true) ∧
    (∀ r, ¬ Call.request r ∈ (ChainClient.run tr chain_id inputs config true).2) := by
  refine ⟨rfl, rfl, rfl, rfl, rfl, rfl, rfl, ?_⟩
  intro r hr
  simp [ChainClient.run, ChainClient.stream] at hr

/-- C8: a step or dependency supplied as an already-typed entity and as the
equivalent raw mapping serialize to identical wire payloads, and whole
`create`/`update` calls built from the two forms are indistinguishable. -/
theorem entity_and_raw_forms_serialize_identically
    (rs : List (String × Json)) (s : ChainStep)
    (rd : List (String × Json)) (d : ChainDependency)
    (tr : TransportModel) (name chain_id k : String)
    (hs : ChainStep.parse rs = Except.ok s)
    (hd : ChainDependency.parse rd = Except.ok d) :
    formatStep (StepInput.entity s) = formatStep (StepInput.raw rs) ∧
    formatDep (DepInput.entity d) = formatDep (DepInput.raw rd) ∧
    ChainClient.create tr name none (some [(k, StepInput.entity s)])
        (some [DepInput.entity d]) none =
      ChainClient.create tr name none (some [(k, StepInput.raw rs)])
        (some [DepInput.raw rd]) none ∧
    ChainClient.update tr chain_id none none (some [(k, StepInput.entity s)])
        (some [DepInput.entity d]) none =
      ChainClient.update tr chain_id none none (some [(k, StepInput.raw rs)])
        (some [DepInput.raw rd]) none := by
  have h1 : formatStep (StepInput.entity s) = formatStep (StepInput.raw rs) := by
    simp [formatStep, hs]
  have h2 : formatDep (DepInput.entity d) = formatDep (DepInput.raw rd) := by
    simp [formatDep, hd]
  have h3 : formatSteps [(k, StepInput.entity s)] =
      formatSteps [(k, StepInput.raw rs)] := by
    simp only [formatSteps, h1]
  have h4 : formatDeps [DepInput.entity d] = formatDeps [DepInput.raw rd] := by
    simp only [formatDeps, h2]
  have h5 : createBody name none (some [(k, StepInput.entity s)])
      (some [DepInput.entity d]) none =
      createBody name none (some [(k, StepInput.raw rs)])
      (some [DepInput.raw rd]) none := by
    simp only [createBody, stepsPart, depsPart, h3, h4]
  have h6 : updateBody none none (some [(k, StepInput.entity s)])
      (some [DepInput.entity d]) none =
      updateBody none none (some [(k, StepInput.raw rs)])
      (some [DepInput.raw rd]) none := by
    simp only [updateBody, stepsPart, depsPart, h3, h4]
  refine ⟨h1, h2, ?_, ?_⟩
  · simp only [ChainClient.create, h5]
  · simp only [ChainClient.update, h6]

/-- Witness for C8 at a concrete step and dependency. -/
theorem entity_and_raw_forms_serialize_identically_witness :
    formatStep (StepInput.entity { id := "s1", type := "llm" }) =
      formatStep (StepInput.raw [("id", Json.str "s1"), ("type", Json.str "llm")]) ∧
    formatDep (DepInput.entity { dependent_step := "a", required_step := "b" }) =
      formatDep (DepInput.raw [("dependent_step", Json.str "a"),
        ("required_step", Json.str "b")]) ∧
    ChainClient.create trFixture "my-chain" none
        (some [("s1", StepInput.entity { id := "s1", type := "llm" })])
        (some [DepInput.entity { dependent_step := "a", required_step := "b" }])
        none =
      ChainClient.create trFixture "my-chain" none
        (some [("s1", StepInput.raw [("id", Json.str "s1"), ("type", Json.str "llm")])])
        (some [DepInput.raw [("dependent_step", Json.str "a"),
          ("required_step", Json.str "b")]]) none ∧
    ChainClient.update trFixture "chain-1" none none
        (some [("s1", StepInput.entity { id := "s1", type := "llm" })])
        (some [DepInput.entity { dependent_step := "a", required_step := "b" }])
        none =
      ChainClient.update trFixture "chain-1" none none
        (some [("s1", StepInput.raw [("id", Json.str "s1"), ("type", Json.str "llm")])])
        (some [DepInput.raw [("dependent_step", Json.str "a"),
          ("required_step", Json.str "b")]]) none :=
  entity_and_raw_forms_serialize_identically
    [("id", Json.str "s1"), ("type", Json.str "llm")]
    { id := "s1", type := "llm" }
    [("dependent_step", Json.str "a"), ("required_step", Json.str "b")]
    { dependent_step := "a", required_step := "b" }
    trFixture "my-chain" "chain-1" "s1" rfl rfl

end IntelliRouter
